import Mathlib

/-!
Shallow embedding of the build orchestrator `tools/build.py` of the
scone-studio repository.

The script is modelled as a deterministic state machine.  A state carries
an abstract filesystem (only the entries the script inspects or mutates)
and an event log recording, in order, every filesystem operation the
script performs, every subprocess invocation it issues, and every line it
prints.  Subprocess exit codes are supplied by an environment oracle
indexed by the number of subprocesses started so far; a non-zero exit
raises, as `subprocess.check_call` does, and the exception propagates to
the top of `main`, which is modelled by the `Except` error branch.
Filesystem paths are modelled as component lists, as in `pathlib`.
-/

/-- The four dependencies the orchestrator can build. -/
inductive Dep
  | osg
  | simbody
  | opensim
  | scone
deriving DecidableEq, Repr

/-- Kind of a filesystem entry: a plain file or a directory. -/
inductive EntryKind
  | file
  | dir
deriving DecidableEq, Repr

/-- Key of each dependency in the SUBDIRS and DEPSDIRS dictionaries. -/
def depName : Dep → String
  | Dep.osg => "osg"
  | Dep.simbody => "simbody"
  | Dep.opensim => "opensim"
  | Dep.scone => "scone"

/-- SUB = ROOT / "submodules". -/
def subRootPath (root : List String) : List String := root ++ ["submodules"]

/-- DEPS = ROOT / "dependencies". -/
def depsRootPath (root : List String) : List String := root ++ ["dependencies"]

/-- SUBDIRS: source checkout of each dependency. -/
def subdirPath (root : List String) : Dep → List String
  | Dep.osg => root ++ ["submodules", "OpenSceneGraph"]
  | Dep.simbody => root ++ ["submodules", "simbody"]
  | Dep.opensim => root ++ ["submodules", "opensim3-scone"]
  | Dep.scone => root ++ ["scone"]

/-- DEPSDIRS[name] = DEPS / name. -/
def depsdirPath (root : List String) (d : Dep) : List String :=
  depsRootPath root ++ [depName d]

/-- The per-dependency build directory DEPSDIRS[name] / "build". -/
def buildPath (root : List String) (d : Dep) : List String :=
  depsdirPath root d ++ ["build"]

/-- The per-dependency install directory DEPSDIRS[name] / "install". -/
def installPath (root : List String) (d : Dep) : List String :=
  depsdirPath root d ++ ["install"]

/-- Rendering of a path as `str(Path)` renders it, joining the components. -/
def pathStr (p : List String) : String := String.intercalate "/" p

/-- CORES = multiprocessing.cpu_count() // 2, computed once at module load. -/
def CORES (cpuCount : Nat) : Nat := cpuCount / 2

/-- Host environment of one process run: the resolved repository root,
`sys.platform`, the processor count, and an oracle giving the exit code of
the k-th subprocess started by the run. -/
structure Env where
  root : List String
  platform : String
  cpuCount : Nat
  exit : Nat → Nat

/-- Abstract filesystem: only the entries the script reads or writes.
Each install entry is absent or present with a kind, because the cache
check uses `Path.exists`, which does not distinguish files from
directories. -/
structure FS where
  subRoot : Bool
  depsRoot : Bool
  osgDir : Bool
  simbodyDir : Bool
  opensimDir : Bool
  sconeDir : Bool
  osgInstall : Option EntryKind
  simbodyInstall : Option EntryKind
  opensimInstall : Option EntryKind
  sconeInstall : Option EntryKind
  osgBuild : Bool
  simbodyBuild : Bool
  opensimBuild : Bool
  sconeBuild : Bool
deriving DecidableEq, Repr

/-- The install entry recorded for a dependency. -/
def FS.installEntry (fs : FS) : Dep → Option EntryKind
  | Dep.osg => fs.osgInstall
  | Dep.simbody => fs.simbodyInstall
  | Dep.opensim => fs.opensimInstall
  | Dep.scone => fs.sconeInstall

/-- Whether the build directory of a dependency exists. -/
def FS.buildDirOf (fs : FS) : Dep → Bool
  | Dep.osg => fs.osgBuild
  | Dep.simbody => fs.simbodyBuild
  | Dep.opensim => fs.opensimBuild
  | Dep.scone => fs.sconeBuild

/-- Whether the DEPSDIRS directory of a dependency exists. -/
def FS.depDirOf (fs : FS) : Dep → Bool
  | Dep.osg => fs.osgDir
  | Dep.simbody => fs.simbodyDir
  | Dep.opensim => fs.opensimDir
  | Dep.scone => fs.sconeDir

/-- Update the install entry of one dependency. -/
def FS.setInstall (fs : FS) (d : Dep) (v : Option EntryKind) : FS :=
  match d with
  | Dep.osg => { fs with osgInstall := v }
  | Dep.simbody => { fs with simbodyInstall := v }
  | Dep.opensim => { fs with opensimInstall := v }
  | Dep.scone => { fs with sconeInstall := v }

/-- Update the build-directory flag of one dependency. -/
def FS.setBuildDir (fs : FS) (d : Dep) (v : Bool) : FS :=
  match d with
  | Dep.osg => { fs with osgBuild := v }
  | Dep.simbody => { fs with simbodyBuild := v }
  | Dep.opensim => { fs with opensimBuild := v }
  | Dep.scone => { fs with sconeBuild := v }

/-- Filesystem operations the script performs directly. -/
inductive FsOp
  | rmtree (p : List String)
  | mkdir (p : List String)
  | mkdirExistOk (p : List String)
deriving DecidableEq, Repr

/-- One subprocess invocation: the argument vector and the working
directory passed to `subprocess.check_call`. -/
structure Invocation where
  cmd : List String
  cwd : Option (List String)
deriving DecidableEq, Repr

/-- One entry of the ordered event log. -/
inductive Ev
  | fsOp (op : FsOp)
  | call (inv : Invocation)
  | note (msg : String)
deriving DecidableEq, Repr

/-- Projection of an event to a subprocess invocation, if it is one. -/
def Ev.callOf : Ev → Option Invocation
  | Ev.call i => some i
  | _ => none

/-- Script state: the abstract filesystem plus the ordered event log. -/
structure St where
  fs : FS
  events : List Ev
deriving DecidableEq, Repr

/-- The subprocess invocations issued so far, in order. -/
def St.calls (s : St) : List Invocation := s.events.filterMap Ev.callOf

/-- A raised `CalledProcessError`: the state at the raise, the failing
invocation and its non-zero exit code. -/
structure Failure where
  st : St
  inv : Invocation
  code : Nat
deriving DecidableEq, Repr

/-- The state reached by an outcome, whether it returned or raised. -/
def resultSt : Except Failure St → St
  | Except.ok s => s
  | Except.error f => f.st

/-- Extract the failure of an erroring outcome (dummy on success). -/
def errOf : Except Failure St → Failure
  | Except.error f => f
  | Except.ok s => ⟨s, ⟨[], none⟩, 0⟩

/-- Outcomes of a run can be compared for equality. -/
instance : DecidableEq (Except Failure St)
  | Except.ok a, Except.ok b =>
    if h : a = b then isTrue (by rw [h]) else isFalse (by simp [h])
  | Except.ok _, Except.error _ => isFalse (by simp)
  | Except.error _, Except.ok _ => isFalse (by simp)
  | Except.error a, Except.error b =>
    if h : a = b then isTrue (by rw [h]) else isFalse (by simp [h])

/-- Which dependency a working directory is the build directory of. -/
def depOfBuildCwd (root : List String) (cwd : Option (List String)) : Option Dep :=
  if cwd = some (buildPath root Dep.osg) then some Dep.osg
  else if cwd = some (buildPath root Dep.simbody) then some Dep.simbody
  else if cwd = some (buildPath root Dep.opensim) then some Dep.opensim
  else if cwd = some (buildPath root Dep.scone) then some Dep.scone
  else none

/-- Environment model of the external build tool: a successful
`cmake --install .` run inside the build directory of a dependency
populates that dependency's install directory.  The script itself never
writes to an install path; this is the only way an install entry changes. -/
def installEffect (env : Env) (inv : Invocation) (fs : FS) : FS :=
  if inv.cmd = ["cmake", "--install", "."] then
    match depOfBuildCwd env.root inv.cwd with
    | some d => fs.setInstall d (some EntryKind.dir)
    | none => fs
  else fs

/-- The line `run` prints before starting the subprocess. -/
def runNote (cmd : List String) : String :=
  "\n>> Running: " ++ String.intercalate " " cmd

/-- Embedding of `run(cmd, cwd)`: print the command line, start the
subprocess; `check_call` raises with the exit code when it is non-zero. -/
def runCmd (env : Env) (cmd : List String) (cwd : Option (List String)) (s : St) :
    Except Failure St :=
  let inv : Invocation := ⟨cmd, cwd⟩
  let code := env.exit s.calls.length
  let s1 : St := { s with events := s.events ++ [Ev.note (runNote cmd), Ev.call inv] }
  if code = 0 then Except.ok { s1 with fs := installEffect env inv s1.fs }
  else Except.error ⟨s1, inv, code⟩

/-- The directory-creation operations `ensure_dirs` performs, in order:
SUB, DEPS, then every DEPSDIRS entry in insertion order. -/
def ensureDirsEvents (root : List String) : List Ev :=
  [Ev.fsOp (FsOp.mkdirExistOk (subRootPath root)),
   Ev.fsOp (FsOp.mkdirExistOk (depsRootPath root)),
   Ev.fsOp (FsOp.mkdirExistOk (depsdirPath root Dep.osg)),
   Ev.fsOp (FsOp.mkdirExistOk (depsdirPath root Dep.simbody)),
   Ev.fsOp (FsOp.mkdirExistOk (depsdirPath root Dep.opensim)),
   Ev.fsOp (FsOp.mkdirExistOk (depsdirPath root Dep.scone))]

/-- Embedding of `ensure_dirs()`: each `mkdir(exist_ok=True)` creates the
directory when absent and succeeds either way. -/
def ensureDirsState (env : Env) (s : St) : St :=
  { fs := { s.fs with subRoot := true, depsRoot := true, osgDir := true, simbodyDir := true, opensimDir := true, sconeDir := true },
    events := s.events ++ ensureDirsEvents env.root }

/-- APT_PACKAGES, verbatim from the source, duplicate included. -/
def APT_PACKAGES : List String :=
  ["git", "rsync", "cmake", "make", "gcc", "g++", "python3.12-dev",
   "ruby", "ruby-dev", "rubygems",
   "libpng-dev", "zlib1g-dev", "qtbase5-dev",
   "liblapack-dev",
   "freeglut3-dev", "libxi-dev", "libxmu-dev", "liblapack-dev"]

/-- Embedding of `install_system_deps()`. -/
def installSystemDeps (env : Env) (s : St) : Except Failure St :=
  match runCmd env ["sudo", "apt-get", "update"] none s with
  | Except.error f => Except.error f
  | Except.ok s =>
    match runCmd env (["sudo", "apt-get", "install", "-y"] ++ APT_PACKAGES) none s with
    | Except.error f => Except.error f
    | Except.ok s =>
      runCmd env ["sudo", "gem", "install", "--no-document", "fpm"] none s

/-- Embedding of `already_built(dep_name)`: `Path.exists` on the install
path, true for an entry of either kind. -/
def alreadyBuilt (d : Dep) (fs : FS) : Bool :=
  (fs.installEntry d).isSome

/-- The configure argument vector `cmake_cmd` built by
`cmake_configure_and_build`, base arguments plus the extra flags. -/
def cmakeCmdFor (env : Env) (d : Dep) (flags : List String) : List String :=
  ["cmake", pathStr (subdirPath env.root d),
   "-DCMAKE_BUILD_TYPE=Release",
   "-DCMAKE_INSTALL_PREFIX=" ++ pathStr (installPath env.root d),
   "-DCMAKE_POLICY_VERSION_MINIMUM=3.5"] ++ flags

/-- The compile invocation argument vector. -/
def buildCmdList (env : Env) : List String :=
  ["cmake", "--build", ".", "--parallel", toString (CORES env.cpuCount)]

/-- The install invocation argument vector. -/
def installCmdList : List String := ["cmake", "--install", "."]

/-- The configure invocation of one step. -/
def cfgInv (env : Env) (d : Dep) (flags : List String) : Invocation :=
  ⟨cmakeCmdFor env d flags, some (buildPath env.root d)⟩

/-- The compile invocation of one step. -/
def bldInv (env : Env) (d : Dep) : Invocation :=
  ⟨buildCmdList env, some (buildPath env.root d)⟩

/-- The install invocation of one step. -/
def instInv (env : Env) (d : Dep) : Invocation :=
  ⟨installCmdList, some (buildPath env.root d)⟩

/-- Embedding of `cmake_configure_and_build(name, extra_flags)`:
reset the build directory, then configure, compile and install in order,
aborting on the first non-zero exit. -/
def cmakeConfigureAndBuild (env : Env) (d : Dep) (flags : List String) (s : St) :
    Except Failure St :=
  let build := buildPath env.root d
  let s0 : St :=
    if s.fs.buildDirOf d then
      { s with events := s.events ++ [Ev.fsOp (FsOp.rmtree build)],
               fs := s.fs.setBuildDir d false }
    else s
  let s1 : St :=
    { s0 with events := s0.events ++ [Ev.fsOp (FsOp.mkdir build)],
              fs := s0.fs.setBuildDir d true }
  match runCmd env (cmakeCmdFor env d flags) (some build) s1 with
  | Except.error f => Except.error f
  | Except.ok s2 =>
    match runCmd env (buildCmdList env) (some build) s2 with
    | Except.error f => Except.error f
    | Except.ok s3 =>
      runCmd env installCmdList (some build) s3

/-- The notice printed when the osg step skips. -/
def osgNotice : String := "OSG already built. Use --rebuild to force."

/-- The notice printed when the simbody step skips. -/
def simbodyNotice : String := "Simbody already built. Use --rebuild to force."

/-- The notice printed when the opensim step skips. -/
def opensimNotice : String := "OpenSim already built. Use --rebuild to force."

/-- The skip notice of each cached step; the scone step never skips, so
its entry is unused and left empty. -/
def noticeOf : Dep → String
  | Dep.osg => osgNotice
  | Dep.simbody => simbodyNotice
  | Dep.opensim => opensimNotice
  | Dep.scone => ""

/-- Extra configure flags of the osg step. -/
def osgExtraFlags : List String :=
  ["-DOSG_USE_QT=ON", "-DDESIRED_QT_VERSION=5"]

/-- Platform-conditional flags of the opensim step, chosen on
`sys.platform == "darwin"`. -/
def opensimPlatformFlags (env : Env) : List String :=
  if env.platform = "darwin" then
    ["-DCMAKE_OSX_DEPLOYMENT_TARGET=10.10",
     "-DCMAKE_CXX_FLAGS=-stdlib=libc++",
     "-DCMAKE_MACOSX_RPATH=TRUE",
     "-DCMAKE_INSTALL_RPATH=@executable_path/../lib",
     "-DBUILD_TESTING=OFF",
     "-DBUILD_API_EXAMPLES=OFF",
     "-DBUILD_API_ONLY=OFF",
     "-DCMAKE_POLICY_VERSION_MINIMUM=3.5"]
  else
    ["-DCMAKE_INSTALL_RPATH=$ORIGIN",
     "-DBUILD_TESTING=OFF",
     "-DBUILD_API_EXAMPLES=OFF",
     "-DBUILD_API_ONLY=OFF",
     "-DCMAKE_POLICY_VERSION_MINIMUM=3.5"]

/-- Extra configure flags of the opensim step: the simbody install path,
the verbosity flag, then the platform flags. -/
def opensimExtraFlags (env : Env) : List String :=
  ["-DSIMBODY_HOME=" ++ pathStr (installPath env.root Dep.simbody),
   "-DCMAKE_VERBOSE_MAKEFILE=FALSE"] ++ opensimPlatformFlags env

/-- Embedding of `build_osg(force)`. -/
def buildOsg (env : Env) (force : Bool) (s : St) : Except Failure St :=
  if alreadyBuilt Dep.osg s.fs && !force then
    Except.ok { s with events := s.events ++ [Ev.note osgNotice] }
  else
    cmakeConfigureAndBuild env Dep.osg osgExtraFlags s

/-- Embedding of `build_simbody(force)`. -/
def buildSimbody (env : Env) (force : Bool) (s : St) : Except Failure St :=
  if alreadyBuilt Dep.simbody s.fs && !force then
    Except.ok { s with events := s.events ++ [Ev.note simbodyNotice] }
  else
    cmakeConfigureAndBuild env Dep.simbody [] s

/-- Embedding of `build_opensim(force)`. -/
def buildOpensim (env : Env) (force : Bool) (s : St) : Except Failure St :=
  if alreadyBuilt Dep.opensim s.fs && !force then
    Except.ok { s with events := s.events ++ [Ev.note opensimNotice] }
  else
    cmakeConfigureAndBuild env Dep.opensim (opensimExtraFlags env) s

/-- Embedding of `build_scone(force)`: the source comments that SCONE is
not considered fixed, so it always rebuilds and the force flag is unused. -/
def buildScone (env : Env) (_force : Bool) (s : St) : Except Failure St :=
  cmakeConfigureAndBuild env Dep.scone [] s

/-- Dispatch from a dependency to its build-step function. -/
def buildStep (env : Env) (d : Dep) (force : Bool) (s : St) : Except Failure St :=
  match d with
  | Dep.osg => buildOsg env force s
  | Dep.simbody => buildSimbody env force s
  | Dep.opensim => buildOpensim env force s
  | Dep.scone => buildScone env force s

/-- Embedding of `build_all(force)`: the four steps in source order,
each starting only after the previous returned, aborting on a raise. -/
def buildAll (env : Env) (force : Bool) (s : St) : Except Failure St :=
  match buildOsg env force s with
  | Except.error f => Except.error f
  | Except.ok s =>
    match buildSimbody env force s with
    | Except.error f => Except.error f
    | Except.ok s =>
      match buildOpensim env force s with
      | Except.error f => Except.error f
      | Except.ok s =>
        buildScone env force s

/-- The CLI target choices. -/
inductive Target
  | deps
  | osg
  | simbody
  | opensim
  | scone
  | all
deriving DecidableEq, Repr

/-- The dispatch chain of `main`, run after `ensure_dirs`. -/
def dispatchTarget (env : Env) (t : Target) (rebuild : Bool) (s : St) :
    Except Failure St :=
  match t with
  | Target.deps => installSystemDeps env s
  | Target.osg => buildOsg env rebuild s
  | Target.simbody => buildSimbody env rebuild s
  | Target.opensim => buildOpensim env rebuild s
  | Target.scone => buildScone env rebuild s
  | Target.all => buildAll env rebuild s

/-- Embedding of `main()` after argument parsing: `ensure_dirs()` first,
then the target dispatch. -/
def mainRun (env : Env) (t : Target) (rebuild : Bool) (s : St) : Except Failure St :=
  dispatchTarget env t rebuild (ensureDirsState env s)

/-- Exit status of the whole process.  A normal return exits 0.  A raised
`CalledProcessError` is never caught, and the Python interpreter terminates
with status 1 on an uncaught exception, whatever the subprocess exit code
was. -/
def mainExitCode (env : Env) (t : Target) (rebuild : Bool) (s : St) : Nat :=
  match mainRun env t rebuild s with
  | Except.ok _ => 0
  | Except.error _ => 1

/-- No install entry is removed between two states: each entry is either
unchanged or newly populated by an install invocation. -/
def installsPreserved (a b : St) : Prop :=
  ∀ d : Dep, b.fs.installEntry d = a.fs.installEntry d ∨
    b.fs.installEntry d = some EntryKind.dir

/-- The build-directory reset operations of one non-skipped step: remove
the directory when it existed, then recreate it. -/
def resetEvents (root : List String) (d : Dep) (had : Bool) : List Ev :=
  (if had then [Ev.fsOp (FsOp.rmtree (buildPath root d))] else []) ++
    [Ev.fsOp (FsOp.mkdir (buildPath root d))]

/-- The six log entries of a fully successful configure, compile and
install sequence of one step. -/
def stepEvents (env : Env) (d : Dep) (flags : List String) : List Ev :=
  [Ev.note (runNote (cmakeCmdFor env d flags)), Ev.call (cfgInv env d flags),
   Ev.note (runNote (buildCmdList env)), Ev.call (bldInv env d),
   Ev.note (runNote installCmdList), Ev.call (instInv env d)]

/-- The extra configure flags each step passes. -/
def extraFlagsOf (env : Env) : Dep → List String
  | Dep.osg => osgExtraFlags
  | Dep.simbody => []
  | Dep.opensim => opensimExtraFlags env
  | Dep.scone => []

/-- An outcome only appends to the event log of the starting state. -/
def eventsExtend (s : St) (x : Except Failure St) : Prop :=
  ∃ l, (resultSt x).events = s.events ++ l

/-- A filesystem with none of the tracked entries present. -/
def emptyFS : FS :=
  { subRoot := false, depsRoot := false, osgDir := false, simbodyDir := false, opensimDir := false, sconeDir := false, osgInstall := none, simbodyInstall := none, opensimInstall := none, sconeInstall := none, osgBuild := false, simbodyBuild := false, opensimBuild := false, sconeBuild := false }

/-- A filesystem in which every dependency has an install directory. -/
def builtFS : FS :=
  { emptyFS with osgInstall := some EntryKind.dir, simbodyInstall := some EntryKind.dir, opensimInstall := some EntryKind.dir, sconeInstall := some EntryKind.dir }

/-- A host on which every subprocess succeeds. -/
def envOk : Env :=
  { root := ["/r"], platform := "linux", cpuCount := 4, exit := fun _ => 0 }

/-- A host on which every subprocess exits with code 7. -/
def envFail7 : Env :=
  { root := ["/r"], platform := "linux", cpuCount := 4, exit := fun _ => 7 }

/-- Starting state over the empty filesystem. -/
def stEmpty : St := { fs := emptyFS, events := [] }

/-- Starting state over the fully installed filesystem. -/
def stBuilt : St := { fs := builtFS, events := [] }

/-- End state of the successful witness run of target all. -/
def c1End : St := resultSt (mainRun envOk Target.all false stBuilt)

/-- Filesystem of the fail-fast witness: only osg is installed. -/
def fsC2 : FS := { emptyFS with osgInstall := some EntryKind.dir }

/-- Starting state of the fail-fast witness. -/
def stC2 : St := { fs := fsC2, events := [] }

/-- State after the skipping osg step of the fail-fast witness. -/
def s1C2 : St := resultSt (buildOsg envFail7 false (ensureDirsState envFail7 stC2))

/-- Failure raised by the simbody step of the fail-fast witness. -/
def fC2 : Failure := errOf (buildSimbody envFail7 false s1C2)

/-- End state of the forced simbody rebuild witness. -/
def c4End : St := resultSt (buildStep envOk Dep.simbody true stBuilt)

/-- End state of the scone step witness. -/
def c5End : St := resultSt (buildScone envOk false stBuilt)

/-- Failure raised by the scone run on the all-failing host. -/
def fC7 : Failure := errOf (mainRun envFail7 Target.scone false stEmpty)

/-- End state of the parallelism witness. -/
def c8End : St := resultSt (cmakeConfigureAndBuild envOk Dep.scone [] stEmpty)

/-- A filesystem in which the osg install path is a plain file. -/
def fsC10 : FS := { emptyFS with osgInstall := some EntryKind.file }

/-- Starting state over the plain-file install entry. -/
def stC10 : St := { fs := fsC10, events := [] }

/-- Failure raised by the osg run on the all-failing host. -/
def fC7b : Failure := errOf (mainRun envFail7 Target.osg false stEmpty)

/-- Conclusion of claim C1: under target all the four steps complete
strictly in the order osg, simbody, opensim, scone, each starting from
the state the previous step returned, and each log segment consists only
of invocations working in that dependency build directory. -/
def c1Concl (env : Env) (force : Bool) (spre s4 : St) : Prop :=
  ∃ s1 s2 s3,
    buildOsg env force (ensureDirsState env spre) = Except.ok s1 ∧
    buildSimbody env force s1 = Except.ok s2 ∧
    buildOpensim env force s2 = Except.ok s3 ∧
    buildScone env force s3 = Except.ok s4 ∧
    (ensureDirsState env spre).calls = spre.calls ∧
    (∃ t, s1.calls = (ensureDirsState env spre).calls ++ t ∧
      ∀ i ∈ t, i.cwd = some (buildPath env.root Dep.osg)) ∧
    (∃ t, s2.calls = s1.calls ++ t ∧
      ∀ i ∈ t, i.cwd = some (buildPath env.root Dep.simbody)) ∧
    (∃ t, s3.calls = s2.calls ++ t ∧
      ∀ i ∈ t, i.cwd = some (buildPath env.root Dep.opensim)) ∧
    (∃ t, s4.calls = s3.calls ++ t ∧
      ∀ i ∈ t, i.cwd = some (buildPath env.root Dep.scone))

/-- Conclusion of claim C2: when the simbody step raises, the whole run
of target all raises that same failure, every subprocess started belongs
to the osg or simbody step and none to the opensim or scone step, and no
already-present install entry is removed. -/
def c2Concl (env : Env) (force : Bool) (spre : St) (f : Failure) : Prop :=
  mainRun env Target.all force spre = Except.error f ∧
  f.code ≠ 0 ∧
  (∃ t, f.st.calls = spre.calls ++ t ∧
    (∀ i ∈ t, i.cwd = some (buildPath env.root Dep.osg) ∨
      i.cwd = some (buildPath env.root Dep.simbody)) ∧
    (∀ i ∈ t, i.cwd ≠ some (buildPath env.root Dep.opensim) ∧
      i.cwd ≠ some (buildPath env.root Dep.scone))) ∧
  installsPreserved spre f.st

/-- Conclusion of claim C4: the log of a successful non-skipped step is
the reset operations followed by the configure, compile and install
invocations, and the configure argument vector is the base vector with
source path, Release build type, install prefix and policy flag followed
by the step extra flags. -/
def c4Concl (env : Env) (d : Dep) (s s' : St) : Prop :=
  s'.events = s.events ++ resetEvents env.root d (s.fs.buildDirOf d) ++
    stepEvents env d (extraFlagsOf env d) ∧
  s'.calls = s.calls ++
    [cfgInv env d (extraFlagsOf env d), bldInv env d, instInv env d] ∧
  cmakeCmdFor env d (extraFlagsOf env d) =
    ["cmake", pathStr (subdirPath env.root d), "-DCMAKE_BUILD_TYPE=Release",
     "-DCMAKE_INSTALL_PREFIX=" ++ pathStr (installPath env.root d),
     "-DCMAKE_POLICY_VERSION_MINIMUM=3.5"] ++ extraFlagsOf env d

/-- Conclusion of claim C6: the opensim step, when it proceeds, passes
cmake the simbody install path, the test and example disabling flags, and
the platform-conditional flags of the host platform family. -/
def c6Concl (env : Env) (force : Bool) (s : St) : Prop :=
  buildOpensim env force s =
    cmakeConfigureAndBuild env Dep.opensim (opensimExtraFlags env) s ∧
  ("-DSIMBODY_HOME=" ++ pathStr (installPath env.root Dep.simbody)) ∈
    cmakeCmdFor env Dep.opensim (opensimExtraFlags env) ∧
  "-DBUILD_TESTING=OFF" ∈ cmakeCmdFor env Dep.opensim (opensimExtraFlags env) ∧
  "-DBUILD_API_EXAMPLES=OFF" ∈ cmakeCmdFor env Dep.opensim (opensimExtraFlags env) ∧
  (env.platform = "darwin" →
    "-DCMAKE_OSX_DEPLOYMENT_TARGET=10.10" ∈
      cmakeCmdFor env Dep.opensim (opensimExtraFlags env) ∧
    "-DCMAKE_CXX_FLAGS=-stdlib=libc++" ∈
      cmakeCmdFor env Dep.opensim (opensimExtraFlags env) ∧
    "-DCMAKE_INSTALL_RPATH=@executable_path/../lib" ∈
      cmakeCmdFor env Dep.opensim (opensimExtraFlags env)) ∧
  (env.platform ≠ "darwin" →
    "-DCMAKE_INSTALL_RPATH=$ORIGIN" ∈
      cmakeCmdFor env Dep.opensim (opensimExtraFlags env))

/-! Helper lemmas about the state machine. -/

lemma calls_of_record (fsv : FS) (es l : List Ev) :
    St.calls ⟨fsv, es ++ l⟩ = St.calls ⟨fsv, es⟩ ++ l.filterMap Ev.callOf := by
  simp [St.calls, List.filterMap_append]

lemma runCmd_ok {env : Env} {cmd : List String} {cwd : Option (List String)}
    {s s' : St} (h : runCmd env cmd cwd s = Except.ok s') :
    s'.events = s.events ++ [Ev.note (runNote cmd), Ev.call ⟨cmd, cwd⟩] ∧
    s'.fs = installEffect env ⟨cmd, cwd⟩ s.fs := by
  simp only [runCmd] at h
  split at h
  · cases h
    exact ⟨rfl, rfl⟩
  · exact Except.noConfusion h

lemma runCmd_err {env : Env} {cmd : List String} {cwd : Option (List String)}
    {s : St} {f : Failure} (h : runCmd env cmd cwd s = Except.error f) :
    f.st.events = s.events ++ [Ev.note (runNote cmd), Ev.call ⟨cmd, cwd⟩] ∧
    f.st.fs = s.fs ∧ f.inv = ⟨cmd, cwd⟩ ∧ f.code ≠ 0 := by
  simp only [runCmd] at h
  split at h
  · exact Except.noConfusion h
  · cases h
    rename_i hc
    exact ⟨rfl, rfl, rfl, hc⟩

lemma setInstall_installEntry (fs : FS) (d : Dep) (v : Option EntryKind) (d' : Dep) :
    (fs.setInstall d v).installEntry d' = if d' = d then v else fs.installEntry d' := by
  cases d <;> cases d' <;> simp [FS.setInstall, FS.installEntry]

lemma setInstall_buildDirOf (fs : FS) (d : Dep) (v : Option EntryKind) (d' : Dep) :
    (fs.setInstall d v).buildDirOf d' = fs.buildDirOf d' := by
  cases d <;> cases d' <;> rfl

lemma setBuildDir_buildDirOf (fs : FS) (d : Dep) (v : Bool) (d' : Dep) :
    (fs.setBuildDir d v).buildDirOf d' = if d' = d then v else fs.buildDirOf d' := by
  cases d <;> cases d' <;> simp [FS.setBuildDir, FS.buildDirOf]

lemma setBuildDir_installEntry (fs : FS) (d : Dep) (v : Bool) (d' : Dep) :
    (fs.setBuildDir d v).installEntry d' = fs.installEntry d' := by
  cases d <;> cases d' <;> rfl

lemma installEffect_installEntry (env : Env) (inv : Invocation) (fs : FS) (d : Dep) :
    (installEffect env inv fs).installEntry d = fs.installEntry d ∨
    (installEffect env inv fs).installEntry d = some EntryKind.dir := by
  unfold installEffect
  split
  · cases depOfBuildCwd env.root inv.cwd with
    | none => exact Or.inl rfl
    | some d0 =>
      rw [setInstall_installEntry]
      by_cases hd : d = d0
      · simp [hd]
      · simp [hd]
  · exact Or.inl rfl

lemma installEffect_buildDirOf (env : Env) (inv : Invocation) (fs : FS) (d : Dep) :
    (installEffect env inv fs).buildDirOf d = fs.buildDirOf d := by
  unfold installEffect
  split
  · cases depOfBuildCwd env.root inv.cwd with
    | none => rfl
    | some d0 => exact setInstall_buildDirOf fs d0 (some EntryKind.dir) d
  · rfl

lemma installsPreserved_refl (s : St) : installsPreserved s s :=
  fun _ => Or.inl rfl

lemma installsPreserved_trans {a b c : St}
    (h1 : installsPreserved a b) (h2 : installsPreserved b c) :
    installsPreserved a c := by
  intro d
  rcases h2 d with h | h
  · rcases h1 d with g | g
    · exact Or.inl (h.trans g)
    · exact Or.inr (h.trans g)
  · exact Or.inr h

lemma installsPreserved_of_fs_eq {a b : St} (h : b.fs = a.fs) :
    installsPreserved a b :=
  fun d => Or.inl (by rw [h])

lemma runCmd_ok_preserves {env : Env} {cmd : List String} {cwd : Option (List String)}
    {s s' : St} (h : runCmd env cmd cwd s = Except.ok s') :
    installsPreserved s s' := by
  intro d
  rw [(runCmd_ok h).2]
  exact installEffect_installEntry env ⟨cmd, cwd⟩ s.fs d

lemma runCmd_err_preserves {env : Env} {cmd : List String} {cwd : Option (List String)}
    {s : St} {f : Failure} (h : runCmd env cmd cwd s = Except.error f) :
    installsPreserved s f.st :=
  installsPreserved_of_fs_eq (runCmd_err h).2.1

lemma cmake_ok {env : Env} {d : Dep} {flags : List String} {s s' : St}
    (h : cmakeConfigureAndBuild env d flags s = Except.ok s') :
    s'.events = s.events ++ resetEvents env.root d (s.fs.buildDirOf d) ++ stepEvents env d flags ∧
    s'.calls = s.calls ++ [cfgInv env d flags, bldInv env d, instInv env d] ∧
    s'.fs.buildDirOf d = true ∧
    installsPreserved s s' := by
  simp only [cmakeConfigureAndBuild] at h
  cases hb : s.fs.buildDirOf d <;>
  · simp only [hb, Bool.false_eq_true, if_false, if_true] at h
    split at h
    · exact Except.noConfusion h
    · rename_i s2 heq1
      split at h
      · exact Except.noConfusion h
      · rename_i s3 heq2
        obtain ⟨e1, g1⟩ := runCmd_ok heq1
        obtain ⟨e2, g2⟩ := runCmd_ok heq2
        obtain ⟨e3, g3⟩ := runCmd_ok h
        refine ⟨?_, ?_, ?_, ?_⟩
        · rw [e3, e2, e1]
          simp [resetEvents, stepEvents, cfgInv, bldInv, instInv]
        · simp only [St.calls]
          rw [e3, e2, e1]
          simp [List.filterMap_append, Ev.callOf, cfgInv, bldInv, instInv, St.calls]
        · rw [g3, installEffect_buildDirOf, g2, installEffect_buildDirOf,
             g1, installEffect_buildDirOf]
          simp [setBuildDir_buildDirOf]
        · have pA : installsPreserved s s2 := by
            intro dd
            rw [g1]
            rcases installEffect_installEntry env _ _ dd with hh | hh
            · rw [hh]
              exact Or.inl (by simp [setBuildDir_installEntry])
            · exact Or.inr hh
          exact installsPreserved_trans
            (installsPreserved_trans pA (runCmd_ok_preserves heq2))
            (runCmd_ok_preserves h)

lemma cmake_err {env : Env} {d : Dep} {flags : List String} {s : St} {f : Failure}
    (h : cmakeConfigureAndBuild env d flags s = Except.error f) :
    (∃ t, f.st.calls = s.calls ++ t ∧ ∀ i ∈ t, i.cwd = some (buildPath env.root d)) ∧
    (∃ l, f.st.events = s.events ++ l) ∧
    f.code ≠ 0 ∧
    installsPreserved s f.st := by
  simp only [cmakeConfigureAndBuild] at h
  cases hb : s.fs.buildDirOf d <;>
  · simp only [hb, Bool.false_eq_true, if_false, if_true] at h
    split at h
    · rename_i f1 heq1
      cases h
      obtain ⟨e1, g1, i1, c1⟩ := runCmd_err heq1
      refine ⟨⟨[⟨cmakeCmdFor env d flags, some (buildPath env.root d)⟩], ?_, ?_⟩,
        ⟨resetEvents env.root d (s.fs.buildDirOf d) ++
          [Ev.note (runNote (cmakeCmdFor env d flags)),
           Ev.call ⟨cmakeCmdFor env d flags, some (buildPath env.root d)⟩], ?_⟩,
        c1, ?_⟩
      · simp only [St.calls]
        rw [e1]
        simp [List.filterMap_append, Ev.callOf, St.calls]
      · simp
      · rw [e1]
        simp [resetEvents, hb, List.append_assoc]
      · intro dd
        rw [g1]
        exact Or.inl (by simp [setBuildDir_installEntry])
    · rename_i s2 heq1
      split at h
      · rename_i f2 heq2
        cases h
        obtain ⟨e1, g1⟩ := runCmd_ok heq1
        obtain ⟨e2, g2, i2, c2⟩ := runCmd_err heq2
        refine ⟨⟨[⟨cmakeCmdFor env d flags, some (buildPath env.root d)⟩,
            ⟨buildCmdList env, some (buildPath env.root d)⟩], ?_, ?_⟩,
          ⟨resetEvents env.root d (s.fs.buildDirOf d) ++
            [Ev.note (runNote (cmakeCmdFor env d flags)),
             Ev.call ⟨cmakeCmdFor env d flags, some (buildPath env.root d)⟩,
             Ev.note (runNote (buildCmdList env)),
             Ev.call ⟨buildCmdList env, some (buildPath env.root d)⟩], ?_⟩,
          c2, ?_⟩
        · simp only [St.calls]
          rw [e2, e1]
          simp [List.filterMap_append, Ev.callOf, St.calls]
        · simp
        · rw [e2, e1]
          simp [resetEvents, hb, List.append_assoc]
        · have pA : installsPreserved s s2 := by
            intro dd
            rw [g1]
            rcases installEffect_installEntry env _ _ dd with hh | hh
            · rw [hh]
              exact Or.inl (by simp [setBuildDir_installEntry])
            · exact Or.inr hh
          exact installsPreserved_trans pA (installsPreserved_of_fs_eq g2)
      · rename_i s3 heq2
        obtain ⟨e1, g1⟩ := runCmd_ok heq1
        obtain ⟨e2, g2⟩ := runCmd_ok heq2
        obtain ⟨e3, g3, i3, c3⟩ := runCmd_err h
        refine ⟨⟨[⟨cmakeCmdFor env d flags, some (buildPath env.root d)⟩,
            ⟨buildCmdList env, some (buildPath env.root d)⟩,
            ⟨installCmdList, some (buildPath env.root d)⟩], ?_, ?_⟩,
          ⟨resetEvents env.root d (s.fs.buildDirOf d) ++
            [Ev.note (runNote (cmakeCmdFor env d flags)),
             Ev.call ⟨cmakeCmdFor env d flags, some (buildPath env.root d)⟩,
             Ev.note (runNote (buildCmdList env)),
             Ev.call ⟨buildCmdList env, some (buildPath env.root d)⟩,
             Ev.note (runNote installCmdList),
             Ev.call ⟨installCmdList, some (buildPath env.root d)⟩], ?_⟩,
          c3, ?_⟩
        · simp only [St.calls]
          rw [e3, e2, e1]
          simp [List.filterMap_append, Ev.callOf, St.calls]
        · simp
        · rw [e3, e2, e1]
          simp [resetEvents, hb, List.append_assoc]
        · have pA : installsPreserved s s2 := by
            intro dd
            rw [g1]
            rcases installEffect_installEntry env _ _ dd with hh | hh
            · rw [hh]
              exact Or.inl (by simp [setBuildDir_installEntry])
            · exact Or.inr hh
          exact installsPreserved_trans
            (installsPreserved_trans pA (runCmd_ok_preserves heq2))
            (installsPreserved_of_fs_eq g3)

lemma cmake_ok_ext {env : Env} {d : Dep} {flags : List String} {s s' : St}
    (h : cmakeConfigureAndBuild env d flags s = Except.ok s') :
    (∃ t, s'.calls = s.calls ++ t ∧ ∀ i ∈ t, i.cwd = some (buildPath env.root d)) ∧
    (∃ l, s'.events = s.events ++ l) ∧
    installsPreserved s s' := by
  obtain ⟨he, hc, _, hp⟩ := cmake_ok h
  refine ⟨⟨[cfgInv env d flags, bldInv env d, instInv env d], hc, ?_⟩,
    ⟨resetEvents env.root d (s.fs.buildDirOf d) ++ stepEvents env d flags,
     by rw [he, List.append_assoc]⟩, hp⟩
  simp [cfgInv, bldInv, instInv]

lemma stepShape_ok {env : Env} {d : Dep} {cond : Bool} {msg : String}
    {flags : List String} {s s' : St}
    (h : (if cond then Except.ok { s with events := s.events ++ [Ev.note msg] }
          else cmakeConfigureAndBuild env d flags s) = Except.ok s') :
    (∃ t, s'.calls = s.calls ++ t ∧ ∀ i ∈ t, i.cwd = some (buildPath env.root d)) ∧
    (∃ l, s'.events = s.events ++ l) ∧
    installsPreserved s s' := by
  split at h
  · cases h
    refine ⟨⟨[], ?_, by simp⟩, ⟨[Ev.note msg], rfl⟩, fun dd => Or.inl rfl⟩
    simp [St.calls, List.filterMap_append, Ev.callOf]
  · exact cmake_ok_ext h

lemma stepShape_err {env : Env} {d : Dep} {cond : Bool} {msg : String}
    {flags : List String} {s : St} {f : Failure}
    (h : (if cond then Except.ok { s with events := s.events ++ [Ev.note msg] }
          else cmakeConfigureAndBuild env d flags s) = Except.error f) :
    (∃ t, f.st.calls = s.calls ++ t ∧ ∀ i ∈ t, i.cwd = some (buildPath env.root d)) ∧
    (∃ l, f.st.events = s.events ++ l) ∧
    f.code ≠ 0 ∧
    installsPreserved s f.st := by
  split at h
  · exact Except.noConfusion h
  · exact cmake_err h

lemma buildStep_ok {env : Env} {d : Dep} {force : Bool} {s s' : St}
    (h : buildStep env d force s = Except.ok s') :
    (∃ t, s'.calls = s.calls ++ t ∧ ∀ i ∈ t, i.cwd = some (buildPath env.root d)) ∧
    (∃ l, s'.events = s.events ++ l) ∧
    installsPreserved s s' := by
  cases d
  · simp only [buildStep, buildOsg] at h
    exact stepShape_ok h
  · simp only [buildStep, buildSimbody] at h
    exact stepShape_ok h
  · simp only [buildStep, buildOpensim] at h
    exact stepShape_ok h
  · simp only [buildStep, buildScone] at h
    exact cmake_ok_ext h

lemma buildStep_err {env : Env} {d : Dep} {force : Bool} {s : St} {f : Failure}
    (h : buildStep env d force s = Except.error f) :
    (∃ t, f.st.calls = s.calls ++ t ∧ ∀ i ∈ t, i.cwd = some (buildPath env.root d)) ∧
    (∃ l, f.st.events = s.events ++ l) ∧
    f.code ≠ 0 ∧
    installsPreserved s f.st := by
  cases d
  · simp only [buildStep, buildOsg] at h
    exact stepShape_err h
  · simp only [buildStep, buildSimbody] at h
    exact stepShape_err h
  · simp only [buildStep, buildOpensim] at h
    exact stepShape_err h
  · simp only [buildStep, buildScone] at h
    exact cmake_err h

lemma buildStep_not_skipped {env : Env} {d : Dep} {force : Bool} {s : St}
    (h : alreadyBuilt d s.fs = false ∨ force = true) :
    buildStep env d force s = cmakeConfigureAndBuild env d (extraFlagsOf env d) s := by
  cases d <;>
    simp only [buildStep, buildOsg, buildSimbody, buildOpensim, buildScone, extraFlagsOf] <;>
    (rcases h with h | h <;> simp [h])

lemma buildStep_skip {env : Env} {d : Dep} {s : St}
    (hd : d ≠ Dep.scone) (hb : alreadyBuilt d s.fs = true) :
    buildStep env d false s =
      Except.ok { s with events := s.events ++ [Ev.note (noticeOf d)] } := by
  cases d
  · simp [buildStep, buildOsg, noticeOf, hb]
  · simp [buildStep, buildSimbody, noticeOf, hb]
  · simp [buildStep, buildOpensim, noticeOf, hb]
  · exact absurd rfl hd

lemma buildAll_ok_decomp {env : Env} {force : Bool} {s s4 : St}
    (h : buildAll env force s = Except.ok s4) :
    ∃ s1 s2 s3, buildOsg env force s = Except.ok s1 ∧
      buildSimbody env force s1 = Except.ok s2 ∧
      buildOpensim env force s2 = Except.ok s3 ∧
      buildScone env force s3 = Except.ok s4 := by
  simp only [buildAll] at h
  split at h
  · exact Except.noConfusion h
  · rename_i s1 h1
    split at h
    · exact Except.noConfusion h
    · rename_i s2 h2
      split at h
      · exact Except.noConfusion h
      · rename_i s3 h3
        exact ⟨s1, s2, s3, h1, h2, h3, h⟩

lemma buildAll_err_simbody {env : Env} {force : Bool} {s s1 : St} {f : Failure}
    (h1 : buildOsg env force s = Except.ok s1)
    (h2 : buildSimbody env force s1 = Except.error f) :
    buildAll env force s = Except.error f := by
  simp only [buildAll, h1, h2]

lemma runCmd_extend (env : Env) (cmd : List String) (cwd : Option (List String))
    (s : St) : eventsExtend s (runCmd env cmd cwd s) := by
  cases hx : runCmd env cmd cwd s with
  | ok s' => exact ⟨[Ev.note (runNote cmd), Ev.call ⟨cmd, cwd⟩], (runCmd_ok hx).1⟩
  | error f => exact ⟨[Ev.note (runNote cmd), Ev.call ⟨cmd, cwd⟩], (runCmd_err hx).1⟩

lemma eventsExtend_chain {s m : St} {x : Except Failure St}
    (h1 : ∃ l, m.events = s.events ++ l) (h2 : eventsExtend m x) :
    eventsExtend s x := by
  obtain ⟨a, ha⟩ := h1
  obtain ⟨b, hb⟩ := h2
  exact ⟨a ++ b, by rw [hb, ha, List.append_assoc]⟩

lemma buildStep_extend (env : Env) (d : Dep) (force : Bool) (s : St) :
    eventsExtend s (buildStep env d force s) := by
  cases hx : buildStep env d force s with
  | ok s' => exact (buildStep_ok hx).2.1
  | error f => exact (buildStep_err hx).2.1

lemma installSystemDeps_extend (env : Env) (s : St) :
    eventsExtend s (installSystemDeps env s) := by
  simp only [installSystemDeps]
  split
  · rename_i f h1
    exact ⟨_, (runCmd_err h1).1⟩
  · rename_i s1 h1
    split
    · rename_i f h2
      exact eventsExtend_chain ⟨_, (runCmd_ok h1).1⟩ ⟨_, (runCmd_err h2).1⟩
    · rename_i s2 h2
      exact eventsExtend_chain ⟨_, (runCmd_ok h1).1⟩
        (eventsExtend_chain ⟨_, (runCmd_ok h2).1⟩
          (runCmd_extend env ["sudo", "gem", "install", "--no-document", "fpm"] none s2))

lemma buildAll_extend (env : Env) (force : Bool) (s : St) :
    eventsExtend s (buildAll env force s) := by
  simp only [buildAll]
  split
  · rename_i f h1
    exact (buildStep_err (d := Dep.osg) h1).2.1
  · rename_i s1 h1
    have p1 : ∃ l, s1.events = s.events ++ l := (buildStep_ok (d := Dep.osg) h1).2.1
    split
    · rename_i f h2
      exact eventsExtend_chain p1 (buildStep_err (d := Dep.simbody) h2).2.1
    · rename_i s2 h2
      have p2 : ∃ l, s2.events = s1.events ++ l := (buildStep_ok (d := Dep.simbody) h2).2.1
      split
      · rename_i f h3
        exact eventsExtend_chain p1 (eventsExtend_chain p2
          (buildStep_err (d := Dep.opensim) h3).2.1)
      · rename_i s3 h3
        have p3 : ∃ l, s3.events = s2.events ++ l := (buildStep_ok (d := Dep.opensim) h3).2.1
        exact eventsExtend_chain p1 (eventsExtend_chain p2 (eventsExtend_chain p3
          (buildStep_extend env Dep.scone force s3)))

lemma dispatchTarget_extend (env : Env) (t : Target) (rebuild : Bool) (s : St) :
    eventsExtend s (dispatchTarget env t rebuild s) := by
  cases t
  · exact installSystemDeps_extend env s
  · exact buildStep_extend env Dep.osg rebuild s
  · exact buildStep_extend env Dep.simbody rebuild s
  · exact buildStep_extend env Dep.opensim rebuild s
  · exact buildStep_extend env Dep.scone rebuild s
  · exact buildAll_extend env rebuild s

lemma buildPath_inj {root : List String} {d d' : Dep}
    (h : buildPath root d = buildPath root d') : d = d' := by
  cases d <;> cases d' <;> first
  | rfl
  | (exfalso
     simp only [buildPath, depsdirPath, depsRootPath, depName, List.append_assoc,
       List.cons_append, List.nil_append] at h
     have h2 := List.append_cancel_left h
     simp at h2)

lemma ensureDirs_calls (env : Env) (s : St) :
    (ensureDirsState env s).calls = s.calls := by
  simp [ensureDirsState, St.calls, ensureDirsEvents, List.filterMap_append, Ev.callOf]

lemma ensureDirs_preserves (env : Env) (s : St) :
    installsPreserved s (ensureDirsState env s) :=
  fun d => Or.inl (by cases d <;> rfl)

lemma cwd_ne_of_ne {root : List String} {d d' : Dep} (h : d ≠ d') :
    (some (buildPath root d) : Option (List String)) ≠ some (buildPath root d') := by
  intro hc
  exact h (buildPath_inj (Option.some.inj hc))

lemma installSystemDeps_err_code {env : Env} {s : St} {f : Failure}
    (h : installSystemDeps env s = Except.error f) : f.code ≠ 0 := by
  simp only [installSystemDeps] at h
  split at h
  · rename_i f1 h1
    cases h
    exact (runCmd_err h1).2.2.2
  · rename_i s1 h1
    split at h
    · rename_i f2 h2
      cases h
      exact (runCmd_err h2).2.2.2
    · exact (runCmd_err h).2.2.2

lemma buildAll_err_code {env : Env} {force : Bool} {s : St} {f : Failure}
    (h : buildAll env force s = Except.error f) : f.code ≠ 0 := by
  simp only [buildAll] at h
  split at h
  · rename_i f1 h1
    cases h
    exact (buildStep_err (d := Dep.osg) h1).2.2.1
  · rename_i s1 h1
    split at h
    · rename_i f2 h2
      cases h
      exact (buildStep_err (d := Dep.simbody) h2).2.2.1
    · rename_i s2 h2
      split at h
      · rename_i f3 h3
        cases h
        exact (buildStep_err (d := Dep.opensim) h3).2.2.1
      · exact (@buildStep_err env Dep.scone force _ f h).2.2.1

lemma mainRun_err_code {env : Env} {t : Target} {rebuild : Bool} {s : St}
    {f : Failure} (h : mainRun env t rebuild s = Except.error f) : f.code ≠ 0 := by
  simp only [mainRun] at h
  cases t <;> simp only [dispatchTarget] at h
  · exact installSystemDeps_err_code h
  · exact (buildStep_err (d := Dep.osg) h).2.2.1
  · exact (buildStep_err (d := Dep.simbody) h).2.2.1
  · exact (buildStep_err (d := Dep.opensim) h).2.2.1
  · exact (@buildStep_err env Dep.scone rebuild _ f h).2.2.1
  · exact buildAll_err_code h

/-! Claim theorems. -/

/-- C3: for every dependency other than the application (osg, simbody,
opensim), if its install directory exists and the force flag is unset,
the build step returns successfully with zero subprocess invocations,
appending only the skip notice to the log. -/
theorem c3_skip_no_subprocess (env : Env) (s : St) (d : Dep)
    (hd : d ≠ Dep.scone) (hb : alreadyBuilt d s.fs = true) :
    buildStep env d false s =
      Except.ok { s with events := s.events ++ [Ev.note (noticeOf d)] } ∧
    (resultSt (buildStep env d false s)).calls = s.calls := by
  have h := @buildStep_skip env d s hd hb
  refine ⟨h, ?_⟩
  rw [h]
  simp [resultSt, St.calls, List.filterMap_append, Ev.callOf]

/-- Witness for C3: the simbody step on a fully installed filesystem. -/
theorem c3_skip_no_subprocess_witness :
    Dep.simbody ≠ Dep.scone ∧ alreadyBuilt Dep.simbody stBuilt.fs = true ∧
    (buildStep envOk Dep.simbody false stBuilt =
      Except.ok { stBuilt with events := stBuilt.events ++ [Ev.note (noticeOf Dep.simbody)] } ∧
     (resultSt (buildStep envOk Dep.simbody false stBuilt)).calls = stBuilt.calls) :=
  ⟨by decide, rfl,
   c3_skip_no_subprocess envOk stBuilt Dep.simbody (by decide) rfl⟩

/-- C4: whenever a step is not skipped (install directory absent, or the
force flag set), it deletes any pre-existing build directory, recreates
it, then issues the configure, compile and install invocations in that
order, with the base configure arguments followed by the extra flags. -/
theorem c4_full_sequence (env : Env) (d : Dep) (force : Bool) (s s' : St)
    (hr : alreadyBuilt d s.fs = false ∨ force = true)
    (h : buildStep env d force s = Except.ok s') :
    c4Concl env d s s' := by
  rw [buildStep_not_skipped hr] at h
  obtain ⟨he, hc, _, _⟩ := cmake_ok h
  exact ⟨he, hc, rfl⟩

set_option maxRecDepth 8000 in
/-- Witness for C4: a forced simbody rebuild on the installed filesystem. -/
theorem c4_full_sequence_witness :
    (alreadyBuilt Dep.simbody stBuilt.fs = false ∨ true = true) ∧
    buildStep envOk Dep.simbody true stBuilt = Except.ok c4End ∧
    c4Concl envOk Dep.simbody stBuilt c4End :=
  ⟨Or.inr rfl, by decide,
   c4_full_sequence envOk Dep.simbody true stBuilt c4End (Or.inr rfl) (by decide)⟩

/-- C5: the application (scone) step never consults the cache and ignores
the force flag: it always delegates to the full cmake sequence, and on
success its log grows by exactly the reset and invocation events. -/
theorem c5_scone_always_rebuilds (env : Env) (force : Bool) (s : St) :
    buildScone env force s = cmakeConfigureAndBuild env Dep.scone [] s ∧
    (∀ s', buildScone env force s = Except.ok s' →
      s'.events = s.events ++
        resetEvents env.root Dep.scone (s.fs.buildDirOf Dep.scone) ++
        stepEvents env Dep.scone []) :=
  ⟨rfl, fun _ h => (cmake_ok h).1⟩

set_option maxRecDepth 8000 in
/-- Witness for C5: the scone step runs even on the fully installed
filesystem with the force flag unset. -/
theorem c5_scone_always_rebuilds_witness :
    buildScone envOk false stBuilt = Except.ok c5End ∧
    buildScone envOk false stBuilt = cmakeConfigureAndBuild envOk Dep.scone [] stBuilt ∧
    c5End.events = stBuilt.events ++
      resetEvents envOk.root Dep.scone (stBuilt.fs.buildDirOf Dep.scone) ++
      stepEvents envOk Dep.scone [] :=
  ⟨rfl, (c5_scone_always_rebuilds envOk false stBuilt).1,
   (c5_scone_always_rebuilds envOk false stBuilt).2 c5End rfl⟩

/-- C8: the compile invocation of every non-skipped step passes the
parallelism degree CORES = cpu_count // 2, integer floor division with no
lower bound, so a single-processor host is passed the degree 0. -/
theorem c8_parallel_degree (env : Env) (d : Dep) (flags : List String) (s s' : St)
    (h : cmakeConfigureAndBuild env d flags s = Except.ok s') :
    (⟨["cmake", "--build", ".", "--parallel", toString (CORES env.cpuCount)],
        some (buildPath env.root d)⟩ : Invocation) ∈ s'.calls ∧
    CORES env.cpuCount = env.cpuCount / 2 ∧
    CORES 1 = 0 ∧
    toString (CORES 1) = "0" := by
  obtain ⟨_, hc, _, _⟩ := cmake_ok h
  refine ⟨?_, rfl, rfl, rfl⟩
  rw [hc]
  simp [bldInv, buildCmdList]

set_option maxRecDepth 8000 in
/-- Witness for C8: the scone step on the empty filesystem. -/
theorem c8_parallel_degree_witness :
    cmakeConfigureAndBuild envOk Dep.scone [] stEmpty = Except.ok c8End ∧
    ((⟨["cmake", "--build", ".", "--parallel", toString (CORES envOk.cpuCount)],
        some (buildPath envOk.root Dep.scone)⟩ : Invocation) ∈ c8End.calls ∧
     CORES envOk.cpuCount = envOk.cpuCount / 2 ∧
     CORES 1 = 0 ∧
     toString (CORES 1) = "0") :=
  ⟨rfl, c8_parallel_degree envOk Dep.scone [] stEmpty c8End rfl⟩

/-- C10: the cache check is bare path existence, so a plain file named
install marks a dependency as already built, and for a cacheable
dependency with the force flag unset the step skips on it. -/
theorem c10_install_file_skips (env : Env) (s : St) (d : Dep)
    (hf : s.fs.installEntry d = some EntryKind.file) :
    alreadyBuilt d s.fs = true ∧
    (d ≠ Dep.scone →
      buildStep env d false s =
        Except.ok { s with events := s.events ++ [Ev.note (noticeOf d)] }) := by
  have hb : alreadyBuilt d s.fs = true := by simp [alreadyBuilt, hf]
  exact ⟨hb, fun hd => @buildStep_skip env d s hd hb⟩

/-- Witness for C10: an osg install path that is a plain file. -/
theorem c10_install_file_skips_witness :
    stC10.fs.installEntry Dep.osg = some EntryKind.file ∧
    (alreadyBuilt Dep.osg stC10.fs = true ∧
     (Dep.osg ≠ Dep.scone →
       buildStep envOk Dep.osg false stC10 =
         Except.ok { stC10 with events := stC10.events ++ [Ev.note (noticeOf Dep.osg)] })) :=
  ⟨rfl, c10_install_file_skips envOk stC10 Dep.osg rfl⟩

/-- C6: whenever the opensim step is not skipped it configures with the
opensim extra flags, whose argument vector contains the simbody install
path, the flags disabling test and example building, and on darwin the
deployment target, the libc++ stdlib selection and the
executable-relative rpath, while on every other platform the ORIGIN
rpath. -/
theorem c6_opensim_configure_flags (env : Env) (force : Bool) (s : St)
    (hr : alreadyBuilt Dep.opensim s.fs = false ∨ force = true) :
    c6Concl env force s := by
  refine ⟨buildStep_not_skipped (d := Dep.opensim) hr, ?_, ?_, ?_, ?_, ?_⟩
  · simp [cmakeCmdFor, opensimExtraFlags]
  · by_cases hp : env.platform = "darwin" <;>
      simp [cmakeCmdFor, opensimExtraFlags, opensimPlatformFlags, hp]
  · by_cases hp : env.platform = "darwin" <;>
      simp [cmakeCmdFor, opensimExtraFlags, opensimPlatformFlags, hp]
  · intro hp
    refine ⟨?_, ?_, ?_⟩ <;>
      simp [cmakeCmdFor, opensimExtraFlags, opensimPlatformFlags, hp]
  · intro hp
    simp [cmakeCmdFor, opensimExtraFlags, opensimPlatformFlags, hp]

/-- Witness for C6: the opensim step on the empty filesystem of a linux
host. -/
theorem c6_opensim_configure_flags_witness :
    (alreadyBuilt Dep.opensim stEmpty.fs = false ∨ false = true) ∧
    c6Concl envOk false stEmpty :=
  ⟨Or.inl rfl, c6_opensim_configure_flags envOk false stEmpty (Or.inl rfl)⟩

/-- C7 (amended): whenever a subprocess of the run exits non-zero, the
raised failure carries that non-zero code and the whole process exits
with status 1, the interpreter status for the uncaught exception; this
status is non-zero but it is the constant 1, not the exit code the
underlying tool produced. -/
theorem c7_exit_nonzero (env : Env) (t : Target) (rebuild : Bool) (s : St)
    (f : Failure) (h : mainRun env t rebuild s = Except.error f) :
    mainExitCode env t rebuild s = 1 ∧
    mainExitCode env t rebuild s ≠ 0 ∧
    f.code ≠ 0 := by
  refine ⟨?_, ?_, mainRun_err_code h⟩
  · simp [mainExitCode, h]
  · simp [mainExitCode, h]

set_option maxRecDepth 8000 in
/-- Witness for C7 (amended): the osg run on a host whose subprocesses
exit 7. -/
theorem c7_exit_nonzero_witness :
    mainRun envFail7 Target.osg false stEmpty = Except.error fC7b ∧
    (mainExitCode envFail7 Target.osg false stEmpty = 1 ∧
     mainExitCode envFail7 Target.osg false stEmpty ≠ 0 ∧
     fC7b.code ≠ 0) :=
  ⟨by decide, c7_exit_nonzero envFail7 Target.osg false stEmpty fC7b (by decide)⟩

set_option maxRecDepth 8000 in
/-- C7 counterexample: on a host where the configure tool exits with
code 7, the run raises a failure carrying code 7 yet the process exit
status is 1, so the exit code is not the code the tool produced. -/
theorem c7_exit_counterexample :
    mainRun envFail7 Target.scone false stEmpty = Except.error fC7 ∧
    fC7.code = 7 ∧
    mainExitCode envFail7 Target.scone false stEmpty = 1 ∧
    mainExitCode envFail7 Target.scone false stEmpty ≠ fC7.code := by
  exact ⟨by decide, by decide, by decide, by decide⟩

/-- C9: for every target, main first performs ensure_dirs, appending to
the log the creation operations of the submodules root, the dependencies
root and the four per-dependency directories, and dispatches the target
only from the state in which those six directories exist; the created
operations stay at the head of everything the dispatch later appends. -/
theorem c9_ensure_dirs (env : Env) (t : Target) (rebuild : Bool) (s : St) :
    mainRun env t rebuild s = dispatchTarget env t rebuild (ensureDirsState env s) ∧
    (ensureDirsState env s).events = s.events ++ ensureDirsEvents env.root ∧
    (ensureDirsState env s).fs.subRoot = true ∧
    (ensureDirsState env s).fs.depsRoot = true ∧
    (∀ d : Dep, (ensureDirsState env s).fs.depDirOf d = true) ∧
    (∃ rest, (resultSt (mainRun env t rebuild s)).events =
      s.events ++ ensureDirsEvents env.root ++ rest) := by
  refine ⟨rfl, rfl, rfl, rfl, fun d => by cases d <;> rfl, ?_⟩
  obtain ⟨l, hl⟩ := dispatchTarget_extend env t rebuild (ensureDirsState env s)
  exact ⟨l, hl⟩

/-- C1: for every successful run of target all, the four build steps run
strictly in the order osg (scene graph), simbody (physics), opensim
(biomechanics library), scone (application): each later step starts from
the state returned by the previous one, and each segment of new
subprocess invocations works only in that step's own build directory. -/
theorem c1_all_order (env : Env) (force : Bool) (spre s4 : St)
    (h : mainRun env Target.all force spre = Except.ok s4) :
    c1Concl env force spre s4 := by
  have hall : buildAll env force (ensureDirsState env spre) = Except.ok s4 := h
  obtain ⟨s1, s2, s3, h1, h2, h3, h4⟩ := buildAll_ok_decomp hall
  exact ⟨s1, s2, s3, h1, h2, h3, h4, ensureDirs_calls env spre,
    (buildStep_ok (d := Dep.osg) h1).1,
    (buildStep_ok (d := Dep.simbody) h2).1,
    (buildStep_ok (d := Dep.opensim) h3).1,
    (@buildStep_ok env Dep.scone force _ _ h4).1⟩

set_option maxRecDepth 8000 in
/-- Witness for C1: a run of target all over the fully installed
filesystem, in which the three cached steps skip and scone builds. -/
theorem c1_all_order_witness :
    mainRun envOk Target.all false stBuilt = Except.ok c1End ∧
    c1Concl envOk false stBuilt c1End :=
  ⟨by decide, c1_all_order envOk false stBuilt c1End (by decide)⟩

/-- C2: for every run of target all in which the osg step returns and the
simbody step raises, the whole run raises that same failure with its
non-zero subprocess exit code, the opensim and scone build directories
never host a subprocess (those steps are never invoked), and no install
entry present at the start is removed. -/
theorem c2_fail_fast (env : Env) (force : Bool) (spre s1 : St) (f : Failure)
    (h1 : buildOsg env force (ensureDirsState env spre) = Except.ok s1)
    (h2 : buildSimbody env force s1 = Except.error f) :
    c2Concl env force spre f := by
  have hall : buildAll env force (ensureDirsState env spre) = Except.error f :=
    buildAll_err_simbody h1 h2
  obtain ⟨⟨t1, hc1, hw1⟩, _, p1⟩ := buildStep_ok (d := Dep.osg) h1
  obtain ⟨⟨t2, hc2, hw2⟩, _, hcode, p2⟩ := buildStep_err (d := Dep.simbody) h2
  refine ⟨hall, hcode, ⟨t1 ++ t2, ?_, ?_, ?_⟩, ?_⟩
  · rw [hc2, hc1, ensureDirs_calls, List.append_assoc]
  · intro i hi
    rcases List.mem_append.mp hi with hi | hi
    · exact Or.inl (hw1 i hi)
    · exact Or.inr (hw2 i hi)
  · intro i hi
    rcases List.mem_append.mp hi with hi | hi
    · rw [hw1 i hi]
      exact ⟨cwd_ne_of_ne (by decide), cwd_ne_of_ne (by decide)⟩
    · rw [hw2 i hi]
      exact ⟨cwd_ne_of_ne (by decide), cwd_ne_of_ne (by decide)⟩
  · exact installsPreserved_trans (ensureDirs_preserves env spre)
      (installsPreserved_trans p1 p2)

set_option maxRecDepth 8000 in
/-- Witness for C2: a run in which osg is cached and skips while the
simbody configure subprocess exits 7. -/
theorem c2_fail_fast_witness :
    buildOsg envFail7 false (ensureDirsState envFail7 stC2) = Except.ok s1C2 ∧
    buildSimbody envFail7 false s1C2 = Except.error fC2 ∧
    c2Concl envFail7 false stC2 fC2 :=
  ⟨by decide, by decide,
   c2_fail_fast envFail7 false stC2 s1C2 fC2 (by decide) (by decide)⟩
